import Mathlib

/-!
Verification development for the usergroup-manager composition function
(src/functions/usergroup-manager/fn.go).

The function body is a straight-line sequence of calls.  We embed it as a
pure Lean function over an `Env` record that fixes the outcome of every
external call (composite-resource read, region lookup, credential lookup,
AWS config load, the DescribeUsers listing, and the desired-resource
write), and translate the in-repository logic line by line.
-/

/-- A JSON-like tree value, modelling the unstructured content of the
composite-resource document, structpb values in the pipeline context, and
the status object written by the function. -/
inductive JSON where
  | null : JSON
  | bool : Bool → JSON
  | num : Int → JSON
  | str : String → JSON
  | arr : List JSON → JSON
  | obj : List (String × JSON) → JSON
deriving Repr

/-- A document: the top-level field map of an unstructured resource
(`oxr.Resource.Object` in the source, a Go `map[string]any`). -/
abbrev Doc := List (String × JSON)

/-- Field lookup in a document, as Go map indexing (first binding wins;
our documents are association lists with unique keys in practice). -/
def getField : Doc → String → Option JSON
  | [], _ => none
  | (k', v) :: fs, k => if k' = k then some v else getField fs k

/-- Field assignment in a document, as Go map assignment
(`oxr.Resource.Object["status"] = ...`): replace the binding when the key
is present, append it otherwise. -/
def setField : Doc → String → JSON → Doc
  | [], k, v => [(k, v)]
  | (k', v') :: fs, k, v =>
      if k' = k then (k, v) :: fs else (k', v') :: setField fs k v

/-- Walk a dotted field path through nested objects, as the fieldpath
library underlying `Resource.GetString` does for a path with no array
indices; `none` when a segment is missing or an intermediate value is not
an object. -/
def getPath : JSON → List String → Option JSON
  | v, [] => some v
  | JSON.obj fs, k :: ks =>
      match getField fs k with
      | some v => getPath v ks
      | none => none
  | _, _ :: _ => none

/-- `oxr.Resource.GetString(path)`: the value at the path when it exists
and is a string, `none` otherwise (missing field or non-string value both
make the Go call return an error). -/
def getString (doc : Doc) (path : List String) : Option String :=
  match getPath (JSON.obj doc) path with
  | some (JSON.str s) => some s
  | _ => none

/-- One entry of `describeOutput.Users`.  In the AWS SDK both fields are
nullable string pointers. -/
structure User where
  userId : Option String
  userName : Option String
deriving Repr, DecidableEq

/-- Credential data: `creds.Data`, a Go `map[string][]byte`.  We model the
byte strings as `String`. -/
abbrev CredData := List (String × String)

/-- Go map indexing with the zero value for a missing key:
`string(creds.Data[k])` is `""` when `k` is absent. -/
def lookupCred : CredData → String → String
  | [], _ => ""
  | (k', v) :: fs, k => if k' = k then v else lookupCred fs k

/-- Severity of a result appended to the response. -/
inductive Severity where
  | fatal
  | warning
  | normal
deriving Repr, DecidableEq

/-- A result entry of the response (`response.Fatal` appends one with
fatal severity). -/
structure Result where
  severity : Severity
  message : String
deriving Repr, DecidableEq

/-- A condition entry of the response.  `targetClaim` records the
`TargetCompositeAndClaim()` call. -/
structure Condition where
  typ : String
  status : Bool
  message : String
  targetClaim : Bool
deriving Repr, DecidableEq

/-- The observable parts of the `RunFunctionResponse` built by the
function.  `response.To` initialises `context` and `desired` from the
request. -/
structure Response where
  results : List Result
  context : List (String × JSON)
  desired : Option Doc
  conditions : List Condition
deriving Repr

/-- `response.Fatal(rsp, err)`: append a fatal result carrying the error
message. -/
def fatalTo (rsp : Response) (msg : String) : Response :=
  { rsp with results := rsp.results ++ [⟨Severity.fatal, msg⟩] }

/-- The environment of one invocation: the request content and the
outcome of every external call the function makes.  Error values carry
the message of the underlying Go error. -/
structure Env where
  requestContext : List (String × JSON)
  requestDesired : Option Doc
  oxr : Except String Doc
  creds : Except String CredData
  loadConfig : String → String × String × String → Except String Unit
  describeUsers : Except String (List User)
  setDesiredOK : Bool

/-- Everything observable about one run: the response, the
composite-resource document after the in-place status mutation (`none`
when the document could not be read), and the transport-level Go error
returned alongside the response. -/
structure RunOutput where
  rsp : Response
  finalOxr : Option Doc
  error : Option String
deriving Repr

/-- The status object written at fn.go lines 101-104. -/
def mkStatus (userIDs : List String) : JSON :=
  JSON.obj [("discoveredUsers", JSON.num userIDs.length),
            ("userIDs", JSON.arr (userIDs.map JSON.str))]

/-- The success condition emitted at fn.go lines 109-110. -/
def successCondition (n : Nat) : Condition :=
  ⟨"UserDiscoverySuccess", true,
   "Discovered " ++ toString n ++ " ElastiCache users", true⟩

/-- The region the function ends up using (fn.go lines 39-43): the value
of `spec.parameters.region` when readable as a string, the default
`"us-east-1"` otherwise. -/
def regionOf (doc : Doc) : String :=
  match getString doc ["spec", "parameters", "region"] with
  | some r => r
  | none => "us-east-1"

/-- Shallow embedding of `RunFunction` (fn.go lines 26-113).  Each match
mirrors one early-return error check of the source; the success tail
mirrors lines 79-112. -/
def RunFunction (env : Env) : RunOutput :=
  let rsp : Response :=
    ⟨[], env.requestContext, env.requestDesired, []⟩
  match env.oxr with
  | Except.error e => ⟨fatalTo rsp e, none, none⟩
  | Except.ok doc =>
    let region := regionOf doc
    match env.creds with
    | Except.error e =>
        ⟨fatalTo rsp ("failed to get AWS credentials: " ++ e), some doc, none⟩
    | Except.ok credData =>
      let accessKey := lookupCred credData "aws_access_key_id"
      let secretKey := lookupCred credData "aws_secret_access_key"
      let sessionToken := lookupCred credData "aws_session_token"
      match env.loadConfig region (accessKey, secretKey, sessionToken) with
      | Except.error e =>
          ⟨fatalTo rsp ("failed to load AWS config: " ++ e), some doc, none⟩
      | Except.ok _ =>
        match env.describeUsers with
        | Except.error e =>
            ⟨fatalTo rsp ("failed to describe ElastiCache users: " ++ e),
             some doc, none⟩
        | Except.ok users =>
          let userIDs : List String := users.filterMap (fun u => u.userId)
          let rsp := { rsp with
            context := setField rsp.context "discoveredUserIDs"
              (JSON.arr (userIDs.map JSON.str)) }
          let newDoc := setField doc "status" (mkStatus userIDs)
          let rsp :=
            if env.setDesiredOK then { rsp with desired := some newDoc }
            else rsp
          let rsp := { rsp with
            conditions := rsp.conditions ++ [successCondition userIDs.length] }
          ⟨rsp, some newDoc, none⟩

/-- Whether a run carries a fatal result. -/
def hasFatal (o : RunOutput) : Bool :=
  o.rsp.results.any (fun r => r.severity = Severity.fatal)

/-- The status object of the run: the status field of the final document,
when the document was readable. -/
def statusOf (o : RunOutput) : Option JSON :=
  match o.finalOxr with
  | some doc => getField doc "status"
  | none => none

/-- Spec-side definition, following the words of algorithm step 5: keep
only entries whose identifier field is present, and build the ordered
sequence of those identifiers. -/
def specPresentIDs : List User → List String
  | [] => []
  | u :: us =>
    match u.userId with
    | some id => id :: specPresentIDs us
    | none => specPresentIDs us

/-- Spec-side definition, following the words of the published-sequence
property: keep only entries whose identifier field is non-empty, and build
the ordered sequence of those identifiers. -/
def specNonEmptyIDs : List User → List String
  | [] => []
  | u :: us =>
    match u.userId with
    | some id => if id = "" then specNonEmptyIDs us else id :: specNonEmptyIDs us
    | none => specNonEmptyIDs us

theorem getField_setField_self (fs : Doc) (k : String) (v : JSON) :
    getField (setField fs k v) k = some v := by
  induction fs with
  | nil => simp [getField, setField]
  | cons p fs ih =>
    obtain ⟨k', v'⟩ := p
    by_cases h : k' = k <;> simp [getField, setField, h, ih]

theorem getField_setField_ne (fs : Doc) (k k' : String) (v : JSON)
    (h : k' ≠ k) : getField (setField fs k v) k' = getField fs k' := by
  induction fs with
  | nil => simp [getField, setField, Ne.symm h]
  | cons p fs ih =>
    obtain ⟨k'', v''⟩ := p
    by_cases h2 : k'' = k
    · subst h2
      simp [getField, setField, Ne.symm h]
    · simp [getField, setField, h2, ih]

theorem filterMap_userId_eq_specPresentIDs (us : List User) :
    us.filterMap (fun u => u.userId) = specPresentIDs us := by
  induction us with
  | nil => rfl
  | cons u us ih =>
    cases h : u.userId <;> simp [specPresentIDs, List.filterMap_cons, h, ih]

theorem filterMap_userId_of_map_eq (us : List User) (ids : List String)
    (h : us.map User.userId = ids.map some) :
    us.filterMap (fun u => u.userId) = ids := by
  induction us generalizing ids with
  | nil => cases ids with
    | nil => rfl
    | cons i ids => simp at h
  | cons u us ih =>
    cases ids with
    | nil => simp at h
    | cons i ids =>
      simp only [List.map_cons, List.cons.injEq] at h
      obtain ⟨h1, h2⟩ := h
      simp [List.filterMap_cons, h1, ih ids h2]

theorem RunFunction_oxr_error (env : Env) (e : String)
    (h : env.oxr = Except.error e) :
    RunFunction env =
      ⟨⟨[⟨Severity.fatal, e⟩], env.requestContext, env.requestDesired, []⟩,
       none, none⟩ := by
  simp [RunFunction, fatalTo, h]

theorem RunFunction_creds_error (env : Env) (doc : Doc) (e : String)
    (h1 : env.oxr = Except.ok doc) (h2 : env.creds = Except.error e) :
    RunFunction env =
      ⟨⟨[⟨Severity.fatal, "failed to get AWS credentials: " ++ e⟩],
        env.requestContext, env.requestDesired, []⟩,
       some doc, none⟩ := by
  simp [RunFunction, fatalTo, h1, h2]

theorem RunFunction_loadConfig_error (env : Env) (doc : Doc) (cd : CredData)
    (e : String)
    (h1 : env.oxr = Except.ok doc) (h2 : env.creds = Except.ok cd)
    (h3 : env.loadConfig (regionOf doc)
      (lookupCred cd "aws_access_key_id", lookupCred cd "aws_secret_access_key",
       lookupCred cd "aws_session_token") = Except.error e) :
    RunFunction env =
      ⟨⟨[⟨Severity.fatal, "failed to load AWS config: " ++ e⟩],
        env.requestContext, env.requestDesired, []⟩,
       some doc, none⟩ := by
  simp [RunFunction, fatalTo, h1, h2, h3]

theorem RunFunction_describe_error (env : Env) (doc : Doc) (cd : CredData)
    (e : String)
    (h1 : env.oxr = Except.ok doc) (h2 : env.creds = Except.ok cd)
    (h3 : env.loadConfig (regionOf doc)
      (lookupCred cd "aws_access_key_id", lookupCred cd "aws_secret_access_key",
       lookupCred cd "aws_session_token") = Except.ok ())
    (h4 : env.describeUsers = Except.error e) :
    RunFunction env =
      ⟨⟨[⟨Severity.fatal, "failed to describe ElastiCache users: " ++ e⟩],
        env.requestContext, env.requestDesired, []⟩,
       some doc, none⟩ := by
  simp [RunFunction, fatalTo, h1, h2, h3, h4]

theorem RunFunction_success (env : Env) (doc : Doc) (cd : CredData)
    (users : List User)
    (h1 : env.oxr = Except.ok doc) (h2 : env.creds = Except.ok cd)
    (h3 : env.loadConfig (regionOf doc)
      (lookupCred cd "aws_access_key_id", lookupCred cd "aws_secret_access_key",
       lookupCred cd "aws_session_token") = Except.ok ())
    (h4 : env.describeUsers = Except.ok users) :
    RunFunction env =
      ⟨⟨[],
        setField env.requestContext "discoveredUserIDs"
          (JSON.arr ((users.filterMap (fun u => u.userId)).map JSON.str)),
        if env.setDesiredOK then
          some (setField doc "status"
            (mkStatus (users.filterMap (fun u => u.userId))))
        else env.requestDesired,
        [successCondition (users.filterMap (fun u => u.userId)).length]⟩,
       some (setField doc "status"
         (mkStatus (users.filterMap (fun u => u.userId)))),
       none⟩ := by
  cases hsd : env.setDesiredOK <;>
    simp [RunFunction, h1, h2, h3, h4, hsd]

/-- A composite-resource document with an explicit region parameter. -/
def docWithRegion : Doc :=
  [("apiVersion", JSON.str "example.org/v1"),
   ("kind", JSON.str "XCacheInfra"),
   ("spec", JSON.obj [("parameters",
      JSON.obj [("region", JSON.str "eu-west-2")])])]

/-- A composite-resource document whose spec has no region parameter. -/
def docNoRegion : Doc :=
  [("apiVersion", JSON.str "example.org/v1"),
   ("kind", JSON.str "XCacheInfra"),
   ("spec", JSON.obj [("parameters", JSON.obj [])])]

/-- A credential bundle carrying all three expected fields. -/
def fullCreds : CredData :=
  [("aws_access_key_id", "AKIAEXAMPLE"),
   ("aws_secret_access_key", "sk-example"),
   ("aws_session_token", "st-example")]

/-- A credential bundle carrying the access key and secret key but no
session token field. -/
def credsNoToken : CredData :=
  [("aws_access_key_id", "AKIAEXAMPLE"),
   ("aws_secret_access_key", "sk-example")]

/-- A config-load oracle that always succeeds. -/
def okLoad : String → String × String × String → Except String Unit :=
  fun _ _ => Except.ok ()

/-- Three users, all with identifiers, as in spec Scenario A. -/
def usersABC : List User :=
  [⟨some "u1", some "alice"⟩, ⟨some "u2", none⟩, ⟨some "u3", some "carol"⟩]

/-- A listing mixing users with and without an identifier. -/
def usersMixed : List User :=
  [⟨some "u1", none⟩, ⟨none, some "ghost"⟩, ⟨some "u2", none⟩]

/-- Environment whose listing returns one user carrying an empty-string
identifier. -/
def envC1ce : Env :=
  ⟨[], none, Except.ok docWithRegion, Except.ok fullCreds, okLoad,
   Except.ok [⟨some "", some "nameless"⟩], true⟩

/-- Environment for a successful run over `usersMixed`. -/
def envC1w : Env :=
  ⟨[], none, Except.ok docWithRegion, Except.ok fullCreds, okLoad,
   Except.ok usersMixed, true⟩

/-- Environment whose credential bundle misses only the session token and
whose listing succeeds with no users. -/
def envC2ce : Env :=
  ⟨[], none, Except.ok docWithRegion, Except.ok credsNoToken, okLoad,
   Except.ok [], true⟩

/-- Environment whose credential lookup fails. -/
def envC2w : Env :=
  ⟨[("priorKey", JSON.str "kept")], some docNoRegion,
   Except.ok docWithRegion, Except.error "aws: credentials not found",
   okLoad, Except.ok usersABC, true⟩

/-- Environment whose user listing call fails. -/
def envC3w : Env :=
  ⟨[("priorKey", JSON.str "kept")], some docNoRegion,
   Except.ok docWithRegion, Except.ok fullCreds, okLoad,
   Except.error "Throttling: rate exceeded", true⟩

/-- Environment for a fully successful run over `usersABC`. -/
def envC4w : Env :=
  ⟨[], none, Except.ok docWithRegion, Except.ok fullCreds, okLoad,
   Except.ok usersABC, true⟩

/-- Environment for a successful run used to exercise the status shape. -/
def envC5w : Env :=
  ⟨[], none, Except.ok docWithRegion, Except.ok fullCreds, okLoad,
   Except.ok usersABC, true⟩

/-- Environment whose document has no region parameter and whose external
calls all succeed. -/
def envC6w : Env :=
  ⟨[], none, Except.ok docNoRegion, Except.ok fullCreds, okLoad,
   Except.ok usersABC, true⟩

/-- Environment whose desired-resource write fails. -/
def envC7w : Env :=
  ⟨[], some docNoRegion, Except.ok docWithRegion, Except.ok fullCreds,
   okLoad, Except.ok usersABC, false⟩

/-- Environment for a successful run used to exercise the frame property. -/
def envC8w : Env :=
  ⟨[], none, Except.ok docWithRegion, Except.ok fullCreds, okLoad,
   Except.ok usersABC, true⟩

/-- Environment whose composite-resource read fails. -/
def envC9w : Env :=
  ⟨[("priorKey", JSON.str "kept")], some docNoRegion,
   Except.error "cannot get observed composite resource", Except.ok fullCreds,
   okLoad, Except.ok usersABC, true⟩

/-- C1 counterexample: the claim requires the published sequence to keep
exactly the entries with a non-empty identifier, but on a listing with one
user whose identifier field is present and equal to the empty string the
function publishes that empty identifier, while the sequence of non-empty
identifiers is empty. -/
theorem C1_counterexample :
    getField (RunFunction envC1ce).rsp.context "discoveredUserIDs"
      = some (JSON.arr [JSON.str ""])
    ∧ specNonEmptyIDs [⟨some "", some "nameless"⟩] = []
    ∧ ([""] : List String) ≠ [] :=
  ⟨rfl, rfl, by decide⟩

/-- C1 (amended): for every successful run, the published identifier
sequence is exactly the ordered sequence of identifiers of the entries
whose identifier field is present (non-nil), in listing order, with no
duplicates introduced or removed. -/
theorem C1_published_ids_present_in_order (env : Env) (doc : Doc)
    (cd : CredData) (users : List User)
    (h1 : env.oxr = Except.ok doc) (h2 : env.creds = Except.ok cd)
    (h3 : env.loadConfig (regionOf doc)
      (lookupCred cd "aws_access_key_id", lookupCred cd "aws_secret_access_key",
       lookupCred cd "aws_session_token") = Except.ok ())
    (h4 : env.describeUsers = Except.ok users) :
    getField (RunFunction env).rsp.context "discoveredUserIDs"
      = some (JSON.arr ((specPresentIDs users).map JSON.str)) := by
  rw [RunFunction_success env doc cd users h1 h2 h3 h4]
  simp [getField_setField_self, filterMap_userId_eq_specPresentIDs]

/-- Witness for the amended C1 at a concrete mixed listing. -/
theorem C1_witness :
    getField (RunFunction envC1w).rsp.context "discoveredUserIDs"
      = some (JSON.arr ((specPresentIDs usersMixed).map JSON.str)) :=
  C1_published_ids_present_in_order envC1w docWithRegion fullCreds usersMixed
    rfl rfl rfl rfl

/-- C2 counterexample: a credential bundle that is present but misses its
session token field does not make the invocation fatal; with a successful
empty listing the context entry and the status are both still written. -/
theorem C2_counterexample :
    credsNoToken.map Prod.fst = ["aws_access_key_id", "aws_secret_access_key"]
    ∧ hasFatal (RunFunction envC2ce) = false
    ∧ getField (RunFunction envC2ce).rsp.context "discoveredUserIDs"
      = some (JSON.arr [])
    ∧ statusOf (RunFunction envC2ce) = some (mkStatus []) :=
  ⟨rfl, rfl, rfl, rfl⟩

/-- C2 (amended): for every invocation in which the credential bundle
cannot be obtained from the request, the invocation produces a fatal
result and writes no pipeline-context entry, no status, no desired
resource and no condition. -/
theorem C2_missing_credentials_fatal (env : Env) (doc : Doc) (e : String)
    (h1 : env.oxr = Except.ok doc) (h2 : env.creds = Except.error e) :
    hasFatal (RunFunction env) = true
    ∧ (RunFunction env).rsp.context = env.requestContext
    ∧ (RunFunction env).finalOxr = some doc
    ∧ (RunFunction env).rsp.desired = env.requestDesired
    ∧ (RunFunction env).rsp.conditions = [] := by
  rw [RunFunction_creds_error env doc e h1 h2]
  exact ⟨rfl, rfl, rfl, rfl, rfl⟩

/-- Witness for the amended C2 at a concrete absent bundle. -/
theorem C2_witness :
    hasFatal (RunFunction envC2w) = true
    ∧ (RunFunction envC2w).rsp.context = envC2w.requestContext
    ∧ (RunFunction envC2w).finalOxr = some docWithRegion
    ∧ (RunFunction envC2w).rsp.desired = envC2w.requestDesired
    ∧ (RunFunction envC2w).rsp.conditions = [] :=
  C2_missing_credentials_fatal envC2w docWithRegion
    "aws: credentials not found" rfl rfl

/-- C3: for every invocation in which the user-listing call fails, the
invocation carries a fatal result, the pipeline context is left as the
request supplied it, the composite document is not mutated, the desired
resource is untouched and no condition is emitted. -/
theorem C3_describe_users_failure_aborts (env : Env) (doc : Doc)
    (cd : CredData) (e : String)
    (h1 : env.oxr = Except.ok doc) (h2 : env.creds = Except.ok cd)
    (h3 : env.loadConfig (regionOf doc)
      (lookupCred cd "aws_access_key_id", lookupCred cd "aws_secret_access_key",
       lookupCred cd "aws_session_token") = Except.ok ())
    (h4 : env.describeUsers = Except.error e) :
    hasFatal (RunFunction env) = true
    ∧ (RunFunction env).rsp.context = env.requestContext
    ∧ (RunFunction env).finalOxr = some doc
    ∧ (RunFunction env).rsp.desired = env.requestDesired
    ∧ (RunFunction env).rsp.conditions = [] := by
  rw [RunFunction_describe_error env doc cd e h1 h2 h3 h4]
  exact ⟨rfl, rfl, rfl, rfl, rfl⟩

/-- Witness for C3 at a concrete throttled listing call. -/
theorem C3_witness :
    hasFatal (RunFunction envC3w) = true
    ∧ (RunFunction envC3w).rsp.context = envC3w.requestContext
    ∧ (RunFunction envC3w).finalOxr = some docWithRegion
    ∧ (RunFunction envC3w).rsp.desired = envC3w.requestDesired
    ∧ (RunFunction envC3w).rsp.conditions = [] :=
  C3_describe_users_failure_aborts envC3w docWithRegion fullCreds
    "Throttling: rate exceeded" rfl rfl rfl rfl

/-- C4: for every successful run whose listing returns users carrying
exactly the identifiers `ids` in order, the context entry under
`discoveredUserIDs` is the list of those identifiers as strings, the
status object pairs their count with the same list, and the single
emitted condition is `UserDiscoverySuccess` with the discovered-count
message, targeting composite and claim. -/
theorem C4_success_outputs (env : Env) (doc : Doc) (cd : CredData)
    (users : List User) (ids : List String)
    (h1 : env.oxr = Except.ok doc) (h2 : env.creds = Except.ok cd)
    (h3 : env.loadConfig (regionOf doc)
      (lookupCred cd "aws_access_key_id", lookupCred cd "aws_secret_access_key",
       lookupCred cd "aws_session_token") = Except.ok ())
    (h4 : env.describeUsers = Except.ok users)
    (hids : users.map User.userId = ids.map some) :
    getField (RunFunction env).rsp.context "discoveredUserIDs"
      = some (JSON.arr (ids.map JSON.str))
    ∧ statusOf (RunFunction env)
      = some (JSON.obj [("discoveredUsers", JSON.num ids.length),
                        ("userIDs", JSON.arr (ids.map JSON.str))])
    ∧ (RunFunction env).rsp.conditions
      = [⟨"UserDiscoverySuccess", true,
          "Discovered " ++ toString ids.length ++ " ElastiCache users",
          true⟩] := by
  have hfm := filterMap_userId_of_map_eq users ids hids
  rw [RunFunction_success env doc cd users h1 h2 h3 h4]
  simp [statusOf, hfm, getField_setField_self, mkStatus, successCondition]

/-- Witness for C4 at spec Scenario A: three users `u1,u2,u3`. -/
theorem C4_witness :
    getField (RunFunction envC4w).rsp.context "discoveredUserIDs"
      = some (JSON.arr [JSON.str "u1", JSON.str "u2", JSON.str "u3"])
    ∧ statusOf (RunFunction envC4w)
      = some (JSON.obj [("discoveredUsers", JSON.num 3),
                        ("userIDs",
                         JSON.arr [JSON.str "u1", JSON.str "u2",
                                   JSON.str "u3"])])
    ∧ (RunFunction envC4w).rsp.conditions
      = [⟨"UserDiscoverySuccess", true, "Discovered 3 ElastiCache users",
          true⟩] :=
  C4_success_outputs envC4w docWithRegion fullCreds usersABC
    ["u1", "u2", "u3"] rfl rfl rfl rfl rfl

/-- C5: in every status output the run produces (every non-fatal run),
the discoveredUsers number equals the length of the userIDs list of the
same output. -/
theorem C5_status_count_matches (env : Env) (st : JSON)
    (hnf : hasFatal (RunFunction env) = false)
    (hst : statusOf (RunFunction env) = some st) :
    ∃ ids : List String,
      st = JSON.obj [("discoveredUsers", JSON.num ids.length),
                     ("userIDs", JSON.arr (ids.map JSON.str))] := by
  cases h1 : env.oxr with
  | error e =>
    rw [RunFunction_oxr_error env e h1] at hnf
    simp [hasFatal] at hnf
  | ok doc =>
    cases h2 : env.creds with
    | error e =>
      rw [RunFunction_creds_error env doc e h1 h2] at hnf
      simp [hasFatal] at hnf
    | ok cd =>
      cases h3 : env.loadConfig (regionOf doc)
          (lookupCred cd "aws_access_key_id",
           lookupCred cd "aws_secret_access_key",
           lookupCred cd "aws_session_token") with
      | error e =>
        rw [RunFunction_loadConfig_error env doc cd e h1 h2 h3] at hnf
        simp [hasFatal] at hnf
      | ok u =>
        cases u
        cases h4 : env.describeUsers with
        | error e =>
          rw [RunFunction_describe_error env doc cd e h1 h2 h3 h4] at hnf
          simp [hasFatal] at hnf
        | ok users =>
          refine ⟨users.filterMap (fun u => u.userId), ?_⟩
          rw [RunFunction_success env doc cd users h1 h2 h3 h4] at hst
          simp [statusOf, getField_setField_self, mkStatus] at hst
          exact hst.symm

/-- Witness for C5 at a concrete successful run. -/
theorem C5_witness :
    ∃ ids : List String,
      mkStatus ["u1", "u2", "u3"]
        = JSON.obj [("discoveredUsers", JSON.num ids.length),
                    ("userIDs", JSON.arr (ids.map JSON.str))] :=
  C5_status_count_matches envC5w (mkStatus ["u1", "u2", "u3"]) rfl rfl

/-- C6: for every document whose region parameter is absent or not a
string, the run substitutes the default region us-east-1 and, when the
config load at that default region and the listing succeed, completes
without any fatal result and emits the success condition. -/
theorem C6_missing_region_defaults (env : Env) (doc : Doc) (cd : CredData)
    (users : List User)
    (h1 : env.oxr = Except.ok doc)
    (hr : getString doc ["spec", "parameters", "region"] = none)
    (h2 : env.creds = Except.ok cd)
    (h3 : env.loadConfig "us-east-1"
      (lookupCred cd "aws_access_key_id", lookupCred cd "aws_secret_access_key",
       lookupCred cd "aws_session_token") = Except.ok ())
    (h4 : env.describeUsers = Except.ok users) :
    regionOf doc = "us-east-1"
    ∧ hasFatal (RunFunction env) = false
    ∧ (RunFunction env).rsp.conditions
      = [successCondition (users.filterMap (fun u => u.userId)).length] := by
  have hreg : regionOf doc = "us-east-1" := by simp [regionOf, hr]
  have h3' : env.loadConfig (regionOf doc)
      (lookupCred cd "aws_access_key_id", lookupCred cd "aws_secret_access_key",
       lookupCred cd "aws_session_token") = Except.ok () := by
    rw [hreg]; exact h3
  rw [RunFunction_success env doc cd users h1 h2 h3' h4]
  exact ⟨hreg, rfl, rfl⟩

/-- Witness for C6 at a concrete document lacking the region field. -/
theorem C6_witness :
    regionOf docNoRegion = "us-east-1"
    ∧ hasFatal (RunFunction envC6w) = false
    ∧ (RunFunction envC6w).rsp.conditions
      = [successCondition
          (usersABC.filterMap (fun u => u.userId)).length] :=
  C6_missing_region_defaults envC6w docNoRegion fullCreds usersABC
    rfl rfl rfl rfl rfl

/-- C7: for every run whose desired-resource write fails, the run is not
fatal, the context entry and the success condition are still emitted, and
the desired state of the response is left as the request supplied it. -/
theorem C7_status_write_failure_nonfatal (env : Env) (doc : Doc)
    (cd : CredData) (users : List User)
    (h1 : env.oxr = Except.ok doc) (h2 : env.creds = Except.ok cd)
    (h3 : env.loadConfig (regionOf doc)
      (lookupCred cd "aws_access_key_id", lookupCred cd "aws_secret_access_key",
       lookupCred cd "aws_session_token") = Except.ok ())
    (h4 : env.describeUsers = Except.ok users)
    (h5 : env.setDesiredOK = false) :
    hasFatal (RunFunction env) = false
    ∧ getField (RunFunction env).rsp.context "discoveredUserIDs"
      = some (JSON.arr ((users.filterMap (fun u => u.userId)).map JSON.str))
    ∧ (RunFunction env).rsp.conditions
      = [successCondition (users.filterMap (fun u => u.userId)).length]
    ∧ (RunFunction env).rsp.desired = env.requestDesired := by
  rw [RunFunction_success env doc cd users h1 h2 h3 h4]
  simp [hasFatal, getField_setField_self, h5]

/-- Witness for C7 at a concrete failing desired-resource write. -/
theorem C7_witness :
    hasFatal (RunFunction envC7w) = false
    ∧ getField (RunFunction envC7w).rsp.context "discoveredUserIDs"
      = some (JSON.arr
          ((usersABC.filterMap (fun u => u.userId)).map JSON.str))
    ∧ (RunFunction envC7w).rsp.conditions
      = [successCondition (usersABC.filterMap (fun u => u.userId)).length]
    ∧ (RunFunction envC7w).rsp.desired = envC7w.requestDesired :=
  C7_status_write_failure_nonfatal envC7w docWithRegion fullCreds usersABC
    rfl rfl rfl rfl rfl

/-- C8: on every run over a readable document, the final composite
document agrees with the input document on every field other than status:
the status field is the only one the function writes. -/
theorem C8_only_status_written (env : Env) (doc : Doc) (k : String)
    (finalDoc : Doc)
    (h1 : env.oxr = Except.ok doc) (hk : k ≠ "status")
    (hf : (RunFunction env).finalOxr = some finalDoc) :
    getField finalDoc k = getField doc k := by
  cases h2 : env.creds with
  | error e =>
    rw [RunFunction_creds_error env doc e h1 h2] at hf
    simp at hf
    rw [hf]
  | ok cd =>
    cases h3 : env.loadConfig (regionOf doc)
        (lookupCred cd "aws_access_key_id",
         lookupCred cd "aws_secret_access_key",
         lookupCred cd "aws_session_token") with
    | error e =>
      rw [RunFunction_loadConfig_error env doc cd e h1 h2 h3] at hf
      simp at hf
      rw [hf]
    | ok u =>
      cases u
      cases h4 : env.describeUsers with
      | error e =>
        rw [RunFunction_describe_error env doc cd e h1 h2 h3 h4] at hf
        simp at hf
        rw [hf]
      | ok users =>
        rw [RunFunction_success env doc cd users h1 h2 h3 h4] at hf
        simp at hf
        rw [← hf, getField_setField_ne _ _ _ _ hk]

/-- The final composite document of the successful run over `envC8w`. -/
def finalDocC8 : Doc :=
  setField docWithRegion "status"
    (mkStatus (usersABC.filterMap (fun u => u.userId)))

/-- Witness for C8: the spec field of the document is untouched by a
successful run. -/
theorem C8_witness :
    getField finalDocC8 "spec" = getField docWithRegion "spec" :=
  C8_only_status_written envC8w docWithRegion "spec" finalDocC8
    rfl (by decide)
    (rfl : (RunFunction envC8w).finalOxr = (RunFunction envC8w).finalOxr)

/-- C9: for every request whose observed composite resource cannot be
read, the run is fatal and produces nothing else: context, desired state
and conditions are untouched and no document exists to mutate. -/
theorem C9_unreadable_composite_fatal (env : Env) (e : String)
    (h : env.oxr = Except.error e) :
    hasFatal (RunFunction env) = true
    ∧ (RunFunction env).rsp.context = env.requestContext
    ∧ (RunFunction env).rsp.desired = env.requestDesired
    ∧ (RunFunction env).rsp.conditions = []
    ∧ (RunFunction env).finalOxr = none := by
  rw [RunFunction_oxr_error env e h]
  exact ⟨rfl, rfl, rfl, rfl, rfl⟩

/-- Witness for C9 at a concrete unreadable composite resource. -/
theorem C9_witness :
    hasFatal (RunFunction envC9w) = true
    ∧ (RunFunction envC9w).rsp.context = envC9w.requestContext
    ∧ (RunFunction envC9w).rsp.desired = envC9w.requestDesired
    ∧ (RunFunction envC9w).rsp.conditions = []
    ∧ (RunFunction envC9w).finalOxr = none :=
  C9_unreadable_composite_fatal envC9w
    "cannot get observed composite resource" rfl

/-- C10: for every environment the function returns a nil transport-level
error: every failure is reported in-band as a fatal result in the
response. -/
theorem C10_no_transport_error (env : Env) :
    (RunFunction env).error = none := by
  cases h1 : env.oxr with
  | error e => rw [RunFunction_oxr_error env e h1]
  | ok doc =>
    cases h2 : env.creds with
    | error e => rw [RunFunction_creds_error env doc e h1 h2]
    | ok cd =>
      cases h3 : env.loadConfig (regionOf doc)
          (lookupCred cd "aws_access_key_id",
           lookupCred cd "aws_secret_access_key",
           lookupCred cd "aws_session_token") with
      | error e => rw [RunFunction_loadConfig_error env doc cd e h1 h2 h3]
      | ok u =>
        cases u
        cases h4 : env.describeUsers with
        | error e => rw [RunFunction_describe_error env doc cd e h1 h2 h3 h4]
        | ok users => rw [RunFunction_success env doc cd users h1 h2 h3 h4]
